import Mathlib

/-
  Verification of the class-based Option/Result library (src/result.ts and
  src/option.ts of the optionals repository) against its specification.

  The TypeScript classes are shallowly embedded: the single private slot of
  each wrapper holds a JS runtime value, modelled by the inductive type
  Value below; methods that can raise are embedded in the Except monad over
  Value (JS code may throw any value), and a thrown JS Error object is the
  error payload of the Except.
-/

namespace Optionals

/-- Fields of a JS error-shaped object: name, message and an optional stack
    (the stack property can be deleted or absent). -/
structure ErrorVal where
  name : String
  message : String
  stack : Option String
deriving DecidableEq

/-- JS runtime values relevant to the library.
    vErr models an object whose prototype chain contains Error.prototype,
    so that it is an instance of Error (this includes subclasses such as the
    TestError of the test suite).
    vErrLike models a plain object carrying name/message/stack fields without
    inheriting from Error (the ErrorLookAlike of the test suite).
    vErrProto models the rare object whose prototype chain contains the Error
    constructor itself, which is what Error.isPrototypeOf tests.
    vSym models symbols other than the exported none symbol, identified by an
    id; vNoneSym is the one process-wide none symbol of option.ts.
    vResult models a Result object used as a payload (its own slot inlined),
    as needed by flatten. -/
inductive Value where
  | vStr : String → Value
  | vInt : Int → Value
  | vBool : Bool → Value
  | vNull : Value
  | vUndefined : Value
  | vNoneSym : Value
  | vSym : Nat → Value
  | vErr : ErrorVal → Value
  | vErrLike : ErrorVal → Value
  | vErrProto : ErrorVal → Value
  | vResult : Value → Value
deriving DecidableEq

open Value

/-- JS truthiness of a value: empty string, zero, false, null and undefined
    are falsy; objects and symbols are truthy. -/
def truthy : Value → Bool
  | vStr s => decide (s ≠ "")
  | vInt n => decide (n ≠ 0)
  | vBool b => b
  | vNull => false
  | vUndefined => false
  | _ => true

/-- JS logical or: returns the first operand if it is truthy, otherwise the
    second (it does not coerce to a boolean). -/
def jsOr (a b : Value) : Value :=
  if truthy a then a else b

/-- JS logical and: returns the first operand if it is falsy, otherwise the
    second. -/
def jsAnd (a b : Value) : Value :=
  if truthy a then b else a

/-- The instanceof Error test: true exactly for objects inheriting from
    Error.prototype (including subclass instances). -/
def instanceofError : Value → Bool
  | vErr _ => true
  | _ => false

/-- The typeof v === "object" test. typeof null is "object" in JS; symbols,
    strings, numbers and booleans are not objects. -/
def typeofIsObject : Value → Bool
  | vErr _ => true
  | vErrLike _ => true
  | vErrProto _ => true
  | vResult _ => true
  | vNull => true
  | _ => false

/-- The Error.isPrototypeOf(v) test: true exactly when the Error constructor
    itself occurs in the prototype chain of v. -/
def errorIsPrototypeOf : Value → Bool
  | vErrProto _ => true
  | _ => false

/-- The raw JS value of the expression
    val instanceof Error || (val && typeof val === "object" && Error.isPrototypeOf(val))
    shared by isOk (negated) and isErr (returned as is) in result.ts.
    Because of short-circuiting this expression is not always a boolean: for a
    falsy non-Error slot it evaluates to the slot itself. -/
def isErrExpr (v : Value) : Value :=
  jsOr (vBool (instanceofError v))
    (jsAnd (jsAnd v (vBool (typeofIsObject v))) (vBool (errorIsPrototypeOf v)))

/-- The Result class of result.ts: a wrapper around one private slot val. -/
structure Result where
  val : Value
deriving DecidableEq

/-- isErr of result.ts returns the raw expression above; every use site
    (if conditions, and the hasInstance normalisation) consumes only its
    truthiness, which is what this boolean records. -/
def Result.isErr (r : Result) : Bool :=
  truthy (isErrExpr r.val)

/-- isOk of result.ts: the JS negation of the same expression, a genuine
    boolean in the source. -/
def Result.isOk (r : Result) : Bool :=
  !(truthy (isErrExpr r.val))

/-- Reading the stack property of an arbitrary value: undefined (none) unless
    the value is an error-shaped object. -/
def getStack : Value → Option String
  | vErr e => e.stack
  | vErrLike e => e.stack
  | vErrProto e => e.stack
  | _ => none

/-- Reading the message property of an arbitrary value. -/
def getMessage : Value → Option String
  | vErr e => some e.message
  | vErrLike e => some e.message
  | vErrProto e => some e.message
  | _ => none

/-- Reading the name property of an arbitrary value. -/
def getName : Value → Option String
  | vErr e => some e.name
  | vErrLike e => some e.name
  | vErrProto e => some e.name
  | _ => none

/-- Template-literal interpolation of a string-or-undefined field: an absent
    field prints as the text undefined. -/
def interpField : Option String → String
  | some s => s
  | none => "undefined"

/-- A freshly constructed new Error(msg): name Error, the given message.
    The host assigns a platform-dependent stack at construction; it is
    modelled as absent because formatError overwrites it on every path where
    the library inspects it, and no theorem below relies on the initial
    stack of an error the library itself constructs. -/
def newError (msg : String) : ErrorVal :=
  ⟨"Error", msg, none⟩

/-- The split of JS on the newline separator, over the character list of the
    string: an empty string yields one empty piece, a trailing newline yields
    a trailing empty piece, exactly as stack.split does. Defined structurally
    so that concrete instances evaluate. -/
def splitNlGo : List Char → List Char → List String
  | [], acc => [String.mk acc.reverse]
  | c :: rest, acc =>
      if c = '\n' then String.mk acc.reverse :: splitNlGo rest []
      else splitNlGo rest (c :: acc)

/-- The JS split of the stack string on the newline separator. -/
def splitLines (s : String) : List String :=
  splitNlGo s.data []

/-- The JS join of the pieces with the given separator. -/
def joinWith (sep : String) : List String → String
  | [] => ""
  | [x] => x
  | x :: rest => x ++ sep ++ joinWith sep rest

/-- The ternary in formatError of result.ts:
    val.stack ? "\n\t" + val.stack.split("\n").join("\n\t") : val.message.
    A present but empty stack string is falsy, so it falls to the message
    branch; a missing message interpolates as undefined. -/
def chainSuffix (v : Value) : String :=
  match getStack v with
  | some s =>
      if s ≠ "" then "\n\t" ++ joinWith "\n\t" (splitLines s)
      else interpField (getMessage v)
  | none => interpField (getMessage v)

/-- formatError of result.ts: overwrites the stack of the freshly built error
    with msg ++ ": " followed by the indented original stack (or the original
    message when the stack is absent or empty), then throws it. -/
def Result.formatError (r : Result) (err : ErrorVal) : Except Value Value :=
  Except.error (vErr { err with stack := some (err.message ++ ": " ++ chainSuffix r.val) })

/-- expect of result.ts. -/
def Result.expect (r : Result) (msg : String) : Except Value Value :=
  if r.isErr then r.formatError (newError msg)
  else Except.ok r.val

/-- expectErr of result.ts. -/
def Result.expectErr (r : Result) (msg : String) : Except Value Value :=
  if r.isOk then r.formatError (newError msg)
  else Except.ok r.val

/-- unwrap of result.ts: the generated message interpolates the name property
    of the slot. -/
def Result.unwrap (r : Result) : Except Value Value :=
  if r.isErr then
    r.formatError (newError ("Unwrap called on " ++ interpField (getName r.val)))
  else Except.ok r.val

/-- Template-literal interpolation String(v) of an arbitrary value, as used
    by the generated message of unwrapErr. Interpolating a symbol actually
    raises a TypeError in JS; that corner is only reachable inside the
    raising branch of unwrapErr and no theorem below depends on the message
    produced there for a symbol payload. -/
def jsTemplate : Value → String
  | vStr s => s
  | vInt n => toString n
  | vBool b => if b then "true" else "false"
  | vNull => "null"
  | vUndefined => "undefined"
  | vNoneSym => "Symbol(None)"
  | vSym n => "Symbol(" ++ toString n ++ ")"
  | vErr e => if e.message = "" then e.name else e.name ++ ": " ++ e.message
  | vErrLike _ => "[object Object]"
  | vErrProto _ => "[object Object]"
  | vResult _ => "[object Result]"

/-- unwrapErr of result.ts: on an Ok value it throws a fresh error naming the
    operation and interpolating the payload, without the formatError
    chaining. -/
def Result.unwrapErr (r : Result) : Except Value Value :=
  if r.isOk then
    Except.error (vErr (newError ("UnwrapError called on value - " ++ jsTemplate r.val)))
  else Except.ok r.val

/-- unwrapOr of result.ts. -/
def Result.unwrapOr (r : Result) (fallback : Value) : Except Value Value :=
  if r.isErr then Except.ok fallback
  else Except.ok r.val

/-- unwrapOrElse of result.ts: the closure receives the error payload.
    Caller-supplied closures are modelled as pure functions, matching the
    specification assumption that they do not themselves raise. -/
def Result.unwrapOrElse (r : Result) (fn : Value → Value) : Except Value Value :=
  if r.isErr then Except.ok (fn r.val)
  else Except.ok r.val

/-- map of result.ts. -/
def Result.map (r : Result) (fn : Value → Value) : Except Value Result :=
  if r.isOk then Except.ok ⟨fn r.val⟩
  else Except.ok r

/-- mapErr of result.ts. -/
def Result.mapErr (r : Result) (fn : Value → Value) : Except Value Result :=
  if r.isOk then Except.ok r
  else Except.ok ⟨fn r.val⟩

/-- mapOr of result.ts. -/
def Result.mapOr (r : Result) (fallback : Value) (fn : Value → Value) : Except Value Value :=
  if r.isOk then Except.ok (fn r.val)
  else Except.ok fallback

/-- or of result.ts. -/
def Result.or (r : Result) (alt : Result) : Except Value Result :=
  if r.isOk then Except.ok r
  else Except.ok alt

/-- peek of result.ts. -/
def Result.peek (r : Result) : Except Value Value :=
  Except.ok r.val

/-- throw of result.ts: throws the contained value if the Result is Err and
    is a no-op otherwise. -/
def Result.throw (r : Result) : Except Value Unit :=
  if r.isErr then Except.error r.val
  else Except.ok ()

/-- The Symbol.iterator of result.ts: yields the slot once if Ok, never if
    Err; materialised as the finite list of yielded values. -/
def Result.iter (r : Result) : Except Value (List Value) :=
  Except.ok (if r.isOk then [r.val] else [])

/-- Result.from of result.ts (the identifier from is reserved in Lean): runs
    the closure inside try/catch, storing a normal completion as the slot and
    a caught thrown value e as the slot (the source casts e as Error). The
    already-run synchronous closure is modelled by the Except outcome it
    produces. -/
def Result.fromFn (fn : Except Value Value) : Except Value Result :=
  match fn with
  | Except.ok v => Except.ok ⟨v⟩
  | Except.error e => Except.ok ⟨e⟩

/-- Result.fromAsync of result.ts: identical catch semantics after awaiting
    the asynchronous closure, whose settled outcome is the Except argument. -/
def Result.fromAsyncFn (fn : Except Value Value) : Except Value Result :=
  match fn with
  | Except.ok v => Except.ok ⟨v⟩
  | Except.error e => Except.ok ⟨e⟩

/-- The body of the reduce in Result.partition: push the unwrapped payload on
    the ok side when isOk, otherwise push the unwrapped error payload on the
    err side. An exception from unwrap or unwrapErr would propagate out of
    reduce, hence the Except-level recursion. -/
def Result.partitionGo : List Result → List Value × List Value → Except Value (List Value × List Value)
  | [], acc => Except.ok acc
  | e :: rest, acc => do
      let acc' ←
        if e.isOk then do
          let v ← e.unwrap
          pure (acc.1 ++ [v], acc.2)
        else do
          let v ← e.unwrapErr
          pure (acc.1, acc.2 ++ [v])
      Result.partitionGo rest acc'

/-- Result.partition of result.ts: reduce over the input with the empty
    accumulator, the pair modelling the object with ok and err arrays. -/
def Result.partition (input : List Result) : Except Value (List Value × List Value) :=
  Result.partitionGo input ([], [])

/-- The Ok helper of result.ts: wraps the input as is; the restriction that
    the argument not be error-shaped exists only in the TS types. -/
def Ok (input : Value) : Result :=
  ⟨input⟩

/-- The Err helper of result.ts: a bare string is coerced to new Error(s),
    anything else is stored directly. -/
def Err (input : Value) : Result :=
  match input with
  | vStr s => ⟨vErr (newError s)⟩
  | _ => ⟨input⟩

/-- The Symbol.hasInstance hook installed on Ok: for a Result instance
    (always a non-null object, so the typeof guard passes) it evaluates
    instance.isOk() || false and the instanceof operator coerces the outcome
    to a boolean. -/
def instanceofOk (r : Result) : Bool :=
  truthy (jsOr (vBool r.isOk) (vBool false))

/-- The Symbol.hasInstance hook installed on Err: instance.isErr() || false,
    where isErr returns the raw short-circuit value, normalised by the
    disjunction with false and coerced to a boolean by instanceof. -/
def instanceofErr (r : Result) : Bool :=
  truthy (jsOr (isErrExpr r.val) (vBool false))

/-- The Option class of option.ts (named JSOption here because Option is a
    core Lean name): one private slot holding the payload or the none
    symbol. -/
structure JSOption where
  val : Value
deriving DecidableEq

/-- isSome of option.ts: val !== none. -/
def JSOption.isSome (o : JSOption) : Bool :=
  !(decide (o.val = vNoneSym))

/-- isNone of option.ts: val === none. -/
def JSOption.isNone (o : JSOption) : Bool :=
  decide (o.val = vNoneSym)

/-- expect of option.ts: throws new Error(msg) on None, with no chaining. -/
def JSOption.expect (o : JSOption) (msg : String) : Except Value Value :=
  if o.isNone then Except.error (vErr (newError msg))
  else Except.ok o.val

/-- unwrap of option.ts. -/
def JSOption.unwrap (o : JSOption) : Except Value Value :=
  if o.isNone then Except.error (vErr (newError "Unwrap called on None"))
  else Except.ok o.val

/-- unwrapOr of option.ts. -/
def JSOption.unwrapOr (o : JSOption) (fallback : Value) : Except Value Value :=
  if o.isNone then Except.ok fallback
  else Except.ok o.val

/-- peek of option.ts. -/
def JSOption.peek (o : JSOption) : Except Value Value :=
  Except.ok o.val

/-- The Some helper of option.ts: wraps the input as is. -/
def Some (input : Value) : JSOption :=
  ⟨input⟩

/-- The None helper of option.ts: a fresh Option wrapping the shared none
    symbol. -/
def None : JSOption :=
  ⟨vNoneSym⟩

/-- okOr of option.ts: Some becomes Ok of the payload, None becomes Err of
    the caller-supplied error or message. -/
def JSOption.okOr (o : JSOption) (err : Value) : Result :=
  if o.isSome then Ok o.val
  else Err err

/-- Option.from of option.ts: runs the closure with no try/catch, so a raised
    failure propagates; a returned null or undefined becomes the None
    wrapper, any other returned value is wrapped as is. -/
def JSOption.fromFn (fn : Except Value Value) : Except Value JSOption := do
  let result ← fn
  if result = vNull ∨ result = vUndefined then
    pure ⟨vNoneSym⟩
  else
    pure ⟨result⟩

/-- Option.fromAsync of option.ts: same, after awaiting the closure. -/
def JSOption.fromAsyncFn (fn : Except Value Value) : Except Value JSOption := do
  let result ← fn
  if result = vNull ∨ result = vUndefined then
    pure ⟨vNoneSym⟩
  else
    pure ⟨result⟩

/-- The Symbol.hasInstance hook installed on Some. -/
def instanceofSome (o : JSOption) : Bool :=
  truthy (jsOr (vBool o.isSome) (vBool false))

/-- The Symbol.hasInstance hook installed on None. -/
def instanceofNone (o : JSOption) : Bool :=
  truthy (jsOr (vBool o.isNone) (vBool false))

/-- Modelled from the spec: the ok() conversion of Result is exercised by the
    repository test suite but the method is absent from the provided
    result.ts. Spec wording: converts to an Option, Some(payload) if Ok,
    None if Err, the error discarded. -/
def Result.ok (r : Result) : Except Value JSOption :=
  if r.isOk then Except.ok (Some r.val)
  else Except.ok None

/-- Modelled from the spec: the flatten() operation of Result is exercised by
    the repository test suite but the method is absent from the provided
    result.ts. Spec wording: when the success payload is itself a Result,
    collapses one level of nesting, identity otherwise; mirrors the shape of
    the flatten present in option.ts (an instanceof check on the slot). -/
def Result.flatten (r : Result) : Except Value Result :=
  match r.val with
  | vResult v => Except.ok ⟨v⟩
  | _ => Except.ok r

/-- The error capability of the specification, stated structurally: a value
    carrying at least a message field. This definition follows the words of
    the spec (not the source) and exists to compare the spec discriminant
    with the implemented one. -/
def structurallyErrorCapable : Value → Bool
  | vErr _ => true
  | vErrLike _ => true
  | vErrProto _ => true
  | _ => false

/-- Substring containment, used to formalise that a failure message names an
    operation or a variant. -/
def containsStr (s pat : String) : Bool :=
  decide (pat.toList <:+: s.toList)

/-- Truthiness of a JS disjunction is the disjunction of truthiness. -/
theorem truthy_jsOr (a b : Value) : truthy (jsOr a b) = (truthy a || truthy b) := by
  unfold jsOr
  by_cases h : truthy a = true <;> simp [h]

/-- Truthiness of a JS conjunction is the conjunction of truthiness. -/
theorem truthy_jsAnd (a b : Value) : truthy (jsAnd a b) = (truthy a && truthy b) := by
  unfold jsAnd
  by_cases h : truthy a = true <;> simp [h]

/-- Truthiness of a JS boolean is that boolean. -/
theorem truthy_vBool (b : Bool) : truthy (vBool b) = b := rfl

/-- The discriminant of result.ts, evaluated to its boolean components. -/
theorem isErr_eval (v : Value) :
    Result.isErr ⟨v⟩ =
      (instanceofError v || (truthy v && (typeofIsObject v && errorIsPrototypeOf v))) := by
  simp [Result.isErr, isErrExpr, truthy_jsOr, truthy_jsAnd, truthy_vBool, Bool.and_assoc]

/-- isErr is the boolean negation of isOk on every instance. -/
theorem isErr_eq_not_isOk (r : Result) : r.isErr = !r.isOk := by
  simp [Result.isErr, Result.isOk]

/-- On an Ok-classified instance, unwrap returns the slot. -/
theorem unwrap_of_isOk (r : Result) (h : r.isOk = true) :
    r.unwrap = Except.ok r.val := by
  have hE : r.isErr = false := by simp [isErr_eq_not_isOk, h]
  simp [Result.unwrap, hE]

/-- On an Err-classified instance, unwrapErr returns the slot. -/
theorem unwrapErr_of_not_isOk (r : Result) (h : r.isOk = false) :
    r.unwrapErr = Except.ok r.val := by
  simp [Result.unwrapErr, h]

/-- The reduce of partition, characterised over an arbitrary accumulator:
    it never raises, and it appends the slots of the Ok elements to the first
    component and the slots of the non-Ok elements to the second, in input
    order. -/
theorem partitionGo_spec (rs : List Result) :
    ∀ a b : List Value,
      Result.partitionGo rs (a, b) =
        Except.ok (a ++ (rs.filter (fun r => r.isOk)).map Result.val,
                   b ++ (rs.filter (fun r => !r.isOk)).map Result.val) := by
  induction rs with
  | nil => intro a b; simp [Result.partitionGo]
  | cons e rest ih =>
      intro a b
      cases h : e.isOk with
      | true =>
          simp [Result.partitionGo, h, unwrap_of_isOk e h, ih, List.filter_cons,
            Bind.bind, Except.bind, pure, Except.pure, List.append_assoc]
      | false =>
          simp [Result.partitionGo, h, unwrapErr_of_not_isOk e h, ih, List.filter_cons,
            Bind.bind, Except.bind, pure, Except.pure, List.append_assoc]

/-- The discriminant of result.ts on an Ok instance, in terms of its boolean
    components. -/
theorem isOk_eval (v : Value) :
    Result.isOk ⟨v⟩ =
      !(instanceofError v || (truthy v && (typeofIsObject v && errorIsPrototypeOf v))) := by
  rw [show Result.isOk ⟨v⟩ = !Result.isErr ⟨v⟩ from rfl, isErr_eval]

/-- Keeping only the Err elements is the complement of keeping only the Ok
    elements. -/
theorem filter_isErr_eq (rs : List Result) :
    rs.filter (fun r => r.isErr) = rs.filter (fun r => !r.isOk) := by
  simp only [isErr_eq_not_isOk]

/-- Claim C1 counterexample: the ErrorLookAlike shape of the test suite
    satisfies the error capability structurally (it has a message field) yet
    the Result wrapping it is classified Ok, not Err — the discriminant of
    result.ts is nominal, not structural, and the tests assert exactly
    this. -/
theorem c1_structural_lookalike_is_ok :
    structurallyErrorCapable (vErrLike ⟨"ErrorLookAlike", "Test", none⟩) = true ∧
    Result.isErr ⟨vErrLike ⟨"ErrorLookAlike", "Test", none⟩⟩ = false ∧
    Result.isOk ⟨vErrLike ⟨"ErrorLookAlike", "Test", none⟩⟩ = true :=
  ⟨rfl, rfl, rfl⟩

/-- Claim C1 (corrected): a payload is classified Err exactly when it is
    nominally an error — an instance of Error (including subclass instances)
    or an object with the Error constructor in its prototype chain; a payload
    that merely has a message field without inheriting from Error is
    classified Ok, as is every payload without the error capability. -/
theorem c1_discriminant_nominal :
    (∀ e : ErrorVal, Result.isErr ⟨vErr e⟩ = true ∧ Result.isOk ⟨vErr e⟩ = false) ∧
    (∀ e : ErrorVal, Result.isErr ⟨vErrProto e⟩ = true ∧ Result.isOk ⟨vErrProto e⟩ = false) ∧
    (∀ e : ErrorVal, Result.isErr ⟨vErrLike e⟩ = false ∧ Result.isOk ⟨vErrLike e⟩ = true) ∧
    (∀ v : Value, structurallyErrorCapable v = false →
      Result.isErr ⟨v⟩ = false ∧ Result.isOk ⟨v⟩ = true) := by
  refine ⟨fun e => ⟨rfl, rfl⟩, fun e => ⟨rfl, rfl⟩, fun e => ⟨rfl, rfl⟩, ?_⟩
  intro v h
  have hE : Result.isErr ⟨v⟩ = false := by
    rw [isErr_eval]
    cases v <;> simp_all [structurallyErrorCapable, instanceofError, errorIsPrototypeOf]
  exact ⟨hE, by rw [show Result.isOk ⟨v⟩ = !Result.isErr ⟨v⟩ from rfl, hE]; rfl⟩

/-- Witness for the amended C1 at a concrete non-capable payload. -/
theorem c1_discriminant_nominal_witness :
    structurallyErrorCapable (vStr "Ok") = false ∧
    (Result.isErr ⟨vStr "Ok"⟩ = false ∧ Result.isOk ⟨vStr "Ok"⟩ = true) :=
  ⟨rfl, c1_discriminant_nominal.2.2.2 (vStr "Ok") rfl⟩

/-- Claim C9 counterexample: a structurally error-capable look-alike is
    stored directly by Err, but the resulting instance is classified Ok, so
    unwrapErr raises instead of returning the stored value. -/
theorem c9_lookalike_unwrapErr_raises :
    structurallyErrorCapable (vErrLike ⟨"ErrorLookAlike", "Fail", none⟩) = true ∧
    Err (vErrLike ⟨"ErrorLookAlike", "Fail", none⟩) =
      (⟨vErrLike ⟨"ErrorLookAlike", "Fail", none⟩⟩ : Result) ∧
    Result.unwrapErr ⟨vErrLike ⟨"ErrorLookAlike", "Fail", none⟩⟩ =
      Except.error (vErr ⟨"Error", "UnwrapError called on value - [object Object]", none⟩) :=
  ⟨rfl, rfl, rfl⟩

/-- Claim C9 (corrected): Err coerces a bare string s to a synthesized error
    with message s, which unwrapErr then returns; a nominal Error instance is
    stored directly and returned unchanged by unwrapErr; a merely structural
    error look-alike is also stored directly, but because the discriminant is
    nominal the instance is Ok and unwrapErr raises on it. -/
theorem c9_err_construction :
    (∀ s : String,
        Err (vStr s) = (⟨vErr ⟨"Error", s, none⟩⟩ : Result) ∧
        Result.unwrapErr ⟨vErr ⟨"Error", s, none⟩⟩ = Except.ok (vErr ⟨"Error", s, none⟩)) ∧
    (∀ e : ErrorVal,
        Err (vErr e) = (⟨vErr e⟩ : Result) ∧
        Result.unwrapErr (Err (vErr e)) = Except.ok (vErr e)) ∧
    (∀ e : ErrorVal,
        Err (vErrLike e) = (⟨vErrLike e⟩ : Result) ∧
        ∃ er : Value, Result.unwrapErr (Err (vErrLike e)) = Except.error er) :=
  ⟨fun _ => ⟨rfl, rfl⟩, fun _ => ⟨rfl, rfl⟩, fun _ => ⟨rfl, _, rfl⟩⟩

/-- Claim C10 (confirmed): the runtime Ok helper records no tag, so applying
    it to an Error instance produces a wrapper that reports isErr, raises on
    unwrap and yields the error from unwrapErr — the Ok-versus-Err
    restriction on the argument of Ok exists only in the TS types. -/
theorem c10_ok_is_untagged (e : ErrorVal) :
    Result.isErr (Ok (vErr e)) = true ∧
    Result.isOk (Ok (vErr e)) = false ∧
    (∃ er : Value, Result.unwrap (Ok (vErr e)) = Except.error er) ∧
    Result.unwrapErr (Ok (vErr e)) = Except.ok (vErr e) :=
  ⟨rfl, rfl, ⟨_, rfl⟩, rfl⟩

/-- Claim C8 (confirmed): partition returns the unwrapped payloads of the Ok
    elements and of the Err elements, each in their original relative
    order. -/
theorem c8_partition_order_preserving (rs : List Result) :
    Result.partition rs =
      Except.ok ((rs.filter (fun r => r.isOk)).map Result.val,
                 (rs.filter (fun r => r.isErr)).map Result.val) := by
  have h := partitionGo_spec rs [] []
  simpa [Result.partition, filter_isErr_eq] using h

/-- Claim C7 (confirmed): the Symbol.hasInstance hooks installed on Ok, Err,
    Some and None return exactly the boolean of the corresponding
    discriminant predicate on every constructed wrapper instance; in
    particular a Result built by Ok from a non-error payload is an instance
    of Ok, and a Result built by Err from an error is not. -/
theorem c7_hasInstance_matches_discriminant :
    (∀ r : Result, instanceofOk r = r.isOk) ∧
    (∀ r : Result, instanceofErr r = r.isErr) ∧
    (∀ o : JSOption, instanceofSome o = o.isSome) ∧
    (∀ o : JSOption, instanceofNone o = o.isNone) ∧
    (∀ v : Value, Result.isErr ⟨v⟩ = false → instanceofOk (Ok v) = true) ∧
    (∀ e : ErrorVal, instanceofOk (Err (vErr e)) = false) := by
  refine ⟨?_, ?_, ?_, ?_, ?_, fun e => rfl⟩
  · intro r; simp [instanceofOk, truthy_jsOr, truthy_vBool]
  · intro r; simp [instanceofErr, truthy_jsOr, truthy_vBool, Result.isErr]
  · intro o; simp [instanceofSome, truthy_jsOr, truthy_vBool]
  · intro o; simp [instanceofNone, truthy_jsOr, truthy_vBool]
  · intro v h
    have hO : Result.isOk ⟨v⟩ = true := by
      rw [show Result.isOk ⟨v⟩ = !Result.isErr ⟨v⟩ from rfl, h]; rfl
    simp [instanceofOk, truthy_jsOr, truthy_vBool, Ok, hO]

/-- Witness for C7 at a concrete Ok payload. -/
theorem c7_hasInstance_matches_discriminant_witness :
    Result.isErr ⟨vStr "Test"⟩ = false ∧ instanceofOk (Ok (vStr "Test")) = true :=
  ⟨by decide, c7_hasInstance_matches_discriminant.2.2.2.2.1 (vStr "Test") (by decide)⟩

/-- Claim C3 counterexample: throw is listed by the claim among the
    operations that never raise, yet on an Err instance it raises the
    contained error, as its own documentation and test assert. -/
theorem c3_throw_raises :
    Result.throw ⟨vErr ⟨"Error", "Test", none⟩⟩ =
      Except.error (vErr ⟨"Error", "Test", none⟩) :=
  rfl

/-- Claim C3 (corrected): unwrap, expect, unwrapErr, expectErr and throw are
    the only Result operations that can raise; every other operation (map,
    mapErr, mapOr, or, peek, ok, flatten, iteration, unwrapOr, unwrapOrElse,
    from, fromAsync, partition) is total and never raises on the library
    account, caller-supplied transforms being assumed pure. -/
theorem c3_raising_surface :
    (∀ (r : Result) (f : Value → Value), ∃ x, r.map f = Except.ok x) ∧
    (∀ (r : Result) (f : Value → Value), ∃ x, r.mapErr f = Except.ok x) ∧
    (∀ (r : Result) (v : Value) (f : Value → Value), ∃ x, r.mapOr v f = Except.ok x) ∧
    (∀ r alt : Result, ∃ x, r.or alt = Except.ok x) ∧
    (∀ r : Result, ∃ x, r.peek = Except.ok x) ∧
    (∀ r : Result, ∃ x, r.ok = Except.ok x) ∧
    (∀ r : Result, ∃ x, r.flatten = Except.ok x) ∧
    (∀ r : Result, ∃ x, r.iter = Except.ok x) ∧
    (∀ (r : Result) (v : Value), ∃ x, r.unwrapOr v = Except.ok x) ∧
    (∀ (r : Result) (f : Value → Value), ∃ x, r.unwrapOrElse f = Except.ok x) ∧
    (∀ fn : Except Value Value, ∃ x, Result.fromFn fn = Except.ok x) ∧
    (∀ fn : Except Value Value, ∃ x, Result.fromAsyncFn fn = Except.ok x) ∧
    (∀ rs : List Result, ∃ x, Result.partition rs = Except.ok x) ∧
    (∃ (r : Result) (e : Value), r.unwrap = Except.error e) ∧
    (∃ (r : Result) (m : String) (e : Value), r.expect m = Except.error e) ∧
    (∃ (r : Result) (e : Value), r.unwrapErr = Except.error e) ∧
    (∃ (r : Result) (m : String) (e : Value), r.expectErr m = Except.error e) ∧
    (∃ (r : Result) (e : Value), Result.throw r = Except.error e) := by
  refine ⟨?_, ?_, ?_, ?_, ?_, ?_, ?_, ?_, ?_, ?_, ?_, ?_, ?_, ?_, ?_, ?_, ?_, ?_⟩
  · intro r f; cases h : r.isOk <;> simp [Result.map, h]
  · intro r f; cases h : r.isOk <;> simp [Result.mapErr, h]
  · intro r v f; cases h : r.isOk <;> simp [Result.mapOr, h]
  · intro r alt; cases h : r.isOk <;> simp [Result.or, h]
  · intro r; exact ⟨_, rfl⟩
  · intro r; cases h : r.isOk <;> simp [Result.ok, h]
  · intro r; obtain ⟨v⟩ := r; cases v <;> exact ⟨_, rfl⟩
  · intro r; exact ⟨_, rfl⟩
  · intro r v; cases h : r.isErr <;> simp [Result.unwrapOr, h]
  · intro r f; cases h : r.isErr <;> simp [Result.unwrapOrElse, h]
  · intro fn; cases fn <;> exact ⟨_, rfl⟩
  · intro fn; cases fn <;> exact ⟨_, rfl⟩
  · intro rs; exact ⟨_, partitionGo_spec rs [] []⟩
  · exact ⟨⟨vErr ⟨"Error", "x", none⟩⟩, _, rfl⟩
  · exact ⟨⟨vErr ⟨"Error", "x", none⟩⟩, "m", _, rfl⟩
  · exact ⟨⟨vStr "Ok"⟩, vErr ⟨"Error", "UnwrapError called on value - Ok", none⟩, rfl⟩
  · exact ⟨⟨vStr "Ok"⟩, "m", vErr ⟨"Error", "m", some "m: undefined"⟩, rfl⟩
  · exact ⟨⟨vErr ⟨"Error", "x", none⟩⟩, _, rfl⟩

/-- Claim C2 counterexample: a closure returning the exported none symbol —
    which is neither null nor undefined — still yields a None-discriminant
    Option from Option.from, against the claimed exactly-when condition. -/
theorem c2_from_none_symbol :
    JSOption.fromFn (Except.ok vNoneSym) = Except.ok ⟨vNoneSym⟩ ∧
    JSOption.isNone ⟨vNoneSym⟩ = true ∧
    vNoneSym ≠ vNull ∧ vNoneSym ≠ vUndefined :=
  ⟨rfl, rfl, by decide, by decide⟩

/-- Claim C2 (corrected): Option.from and Option.fromAsync yield a
    None-discriminant Option exactly when the closure returns null, undefined
    or the none token itself, yield Some of the returned value otherwise, and
    do not catch a raised failure, which propagates; Result.from and
    Result.fromAsync catch the raised failure and, when it is an error value,
    return an Err wrapping it (a thrown non-error value is stored unchanged
    and classifies as Ok). -/
theorem c2_catch_scope :
    (∀ v : Value, v ≠ vNull → v ≠ vUndefined → v ≠ vNoneSym →
        JSOption.fromFn (Except.ok v) = Except.ok ⟨v⟩ ∧
        JSOption.fromAsyncFn (Except.ok v) = Except.ok ⟨v⟩ ∧
        JSOption.isSome ⟨v⟩ = true) ∧
    (JSOption.fromFn (Except.ok vNull) = Except.ok None ∧
     JSOption.fromFn (Except.ok vUndefined) = Except.ok None ∧
     JSOption.fromFn (Except.ok vNoneSym) = Except.ok None ∧
     JSOption.isNone None = true) ∧
    (∀ e : Value, JSOption.fromFn (Except.error e) = Except.error e ∧
                  JSOption.fromAsyncFn (Except.error e) = Except.error e) ∧
    (∀ e : ErrorVal,
        Result.fromFn (Except.error (vErr e)) = Except.ok ⟨vErr e⟩ ∧
        Result.fromAsyncFn (Except.error (vErr e)) = Except.ok ⟨vErr e⟩ ∧
        Result.isErr ⟨vErr e⟩ = true) := by
  refine ⟨?_, ⟨rfl, rfl, rfl, rfl⟩, fun e => ⟨rfl, rfl⟩, fun e => ⟨rfl, rfl, rfl⟩⟩
  intro v h1 h2 h3
  refine ⟨?_, ?_, ?_⟩
  · simp [JSOption.fromFn, Bind.bind, Except.bind, h1, h2, pure, Except.pure]
  · simp [JSOption.fromAsyncFn, Bind.bind, Except.bind, h1, h2, pure, Except.pure]
  · simp [JSOption.isSome, h3]

/-- Witness for C2 at a concrete closure outcome. -/
theorem c2_catch_scope_witness :
    vStr "Test" ≠ vNull ∧ vStr "Test" ≠ vUndefined ∧ vStr "Test" ≠ vNoneSym ∧
    (JSOption.fromFn (Except.ok (vStr "Test")) = Except.ok ⟨vStr "Test"⟩ ∧
     JSOption.fromAsyncFn (Except.ok (vStr "Test")) = Except.ok ⟨vStr "Test"⟩ ∧
     JSOption.isSome ⟨vStr "Test"⟩ = true) :=
  ⟨by decide, by decide, by decide,
   c2_catch_scope.1 (vStr "Test") (by decide) (by decide) (by decide)⟩

/-- Claim C4 counterexample: expect raises a misuse failure on an Err, but
    the message is exactly the caller-supplied text, which names neither the
    operation nor the unexpected variant. -/
theorem c4_expect_message_is_caller_text :
    Result.expect ⟨vErr ⟨"Error", "Test", some "trace"⟩⟩ "Alternative" =
      Except.error (vErr ⟨"Error", "Alternative", some "Alternative: \n\ttrace"⟩) ∧
    containsStr "Alternative" "expect" = false ∧
    containsStr "Alternative" "Expect" = false ∧
    containsStr "Alternative" "Err" = false ∧
    containsStr "Alternative" "err" = false :=
  ⟨rfl, by decide, by decide, by decide, by decide⟩

/-- Claim C4 (corrected): unwrap on an Err raises a failure whose message
    names the operation and the name of the error, and whose stack chains the
    original stack, indented beneath the new message, or the original message
    when the stack is absent (or empty); expect on an Err raises the
    caller-supplied message with the same chaining; expectErr on an Ok raises
    the caller-supplied message with the chaining applied to the non-error
    payload, whose absent fields interpolate as undefined; unwrapErr on an Ok
    raises a message naming the operation and interpolating the payload,
    without any chaining of the payload fields. -/
theorem c4_misuse_failure_format :
    (∀ n m msg s : String, s ≠ "" →
        Result.expect ⟨vErr ⟨n, m, some s⟩⟩ msg =
          Except.error (vErr ⟨"Error", msg,
            some (msg ++ ": " ++ ("\n\t" ++ joinWith "\n\t" (splitLines s)))⟩)) ∧
    (∀ n m msg : String,
        Result.expect ⟨vErr ⟨n, m, none⟩⟩ msg =
          Except.error (vErr ⟨"Error", msg, some (msg ++ ": " ++ m)⟩)) ∧
    (∀ n m s : String, s ≠ "" →
        Result.unwrap ⟨vErr ⟨n, m, some s⟩⟩ =
          Except.error (vErr ⟨"Error", "Unwrap called on " ++ n,
            some ("Unwrap called on " ++ n ++ ": " ++
              ("\n\t" ++ joinWith "\n\t" (splitLines s)))⟩)) ∧
    (∀ n m : String,
        Result.unwrap ⟨vErr ⟨n, m, none⟩⟩ =
          Except.error (vErr ⟨"Error", "Unwrap called on " ++ n,
            some ("Unwrap called on " ++ n ++ ": " ++ m)⟩)) ∧
    (∀ s msg : String,
        Result.expectErr ⟨vStr s⟩ msg =
          Except.error (vErr ⟨"Error", msg, some (msg ++ ": " ++ "undefined")⟩)) ∧
    (∀ s : String,
        ∃ st : Option String,
          Result.unwrapErr ⟨vStr s⟩ =
            Except.error (vErr ⟨"Error", "UnwrapError called on value - " ++ s, st⟩)) := by
  have hOkStr : ∀ s : String, Result.isOk ⟨vStr s⟩ = true := by
    intro s
    rw [isOk_eval]
    simp [instanceofError, typeofIsObject]
  refine ⟨?_, ?_, ?_, ?_, ?_, ?_⟩
  · intro n m msg s hs
    simp [Result.expect, Result.formatError, chainSuffix, getStack, getMessage,
      newError, hs, isErr_eval, instanceofError]
  · intro n m msg
    simp [Result.expect, Result.formatError, chainSuffix, getStack, getMessage,
      interpField, newError, isErr_eval, instanceofError]
  · intro n m s hs
    simp [Result.unwrap, Result.formatError, chainSuffix, getStack, getMessage,
      getName, interpField, newError, hs, isErr_eval, instanceofError]
  · intro n m
    simp [Result.unwrap, Result.formatError, chainSuffix, getStack, getMessage,
      getName, interpField, newError, isErr_eval, instanceofError]
  · intro s msg
    simp [Result.expectErr, Result.formatError, chainSuffix, getStack, getMessage,
      interpField, newError, hOkStr s]
  · intro s
    exact ⟨none, by simp [Result.unwrapErr, newError, jsTemplate, hOkStr s]⟩

/-- Witness for C4 at a concrete error with a present stack. -/
theorem c4_misuse_failure_format_witness :
    ("line1\nline2" : String) ≠ "" ∧
    Result.unwrap ⟨vErr ⟨"TestError", "Boom", some "line1\nline2"⟩⟩ =
      Except.error (vErr ⟨"Error", "Unwrap called on " ++ "TestError",
        some ("Unwrap called on " ++ "TestError" ++ ": " ++
          ("\n\t" ++ joinWith "\n\t" (splitLines "line1\nline2")))⟩) :=
  ⟨by decide, c4_misuse_failure_format.2.2.1 "TestError" "Boom" "line1\nline2" (by decide)⟩

/-- Claim C5 counterexample: a Some wrapping an Error instance converts by
    okOr into a Result that is classified Err, so the ok() conversion
    discards the payload into None and the final unwrap raises instead of
    returning the original value. -/
theorem c5_roundtrip_fails_on_error_payload :
    (Some (vErr ⟨"Error", "Boom", none⟩)).okOr (vErr ⟨"Error", "E", none⟩) =
      (⟨vErr ⟨"Error", "Boom", none⟩⟩ : Result) ∧
    Result.ok (⟨vErr ⟨"Error", "Boom", none⟩⟩ : Result) = Except.ok None ∧
    JSOption.unwrap None = Except.error (vErr ⟨"Error", "Unwrap called on None", none⟩) :=
  ⟨rfl, rfl, rfl⟩

/-- Claim C5 (corrected): for every payload that is neither the none token
    nor classified as an error by the Result discriminant, the round trip
    Some(v).okOr(e).ok().unwrap() returns v; None().okOr(e).unwrapErr()
    returns the supplied error value unchanged; and ok() maps an Err built
    from an error to None. -/
theorem c5_roundtrip :
    (∀ v e : Value, v ≠ vNoneSym → Result.isErr ⟨v⟩ = false →
        (Some v).okOr e = Ok v ∧
        Result.ok (Ok v) = Except.ok (Some v) ∧
        JSOption.unwrap (Some v) = Except.ok v) ∧
    (∀ e : ErrorVal,
        JSOption.okOr None (vErr e) = (⟨vErr e⟩ : Result) ∧
        Result.unwrapErr ⟨vErr e⟩ = Except.ok (vErr e)) ∧
    (∀ e : ErrorVal, Result.ok (Err (vErr e)) = Except.ok None) := by
  refine ⟨?_, fun e => ⟨rfl, rfl⟩, fun e => rfl⟩
  intro v e hv her
  have hOk : Result.isOk ⟨v⟩ = true := by
    rw [show Result.isOk ⟨v⟩ = !Result.isErr ⟨v⟩ from rfl, her]; rfl
  refine ⟨?_, ?_, ?_⟩
  · simp [JSOption.okOr, JSOption.isSome, hv, Some, Ok]
  · simp [Result.ok, Ok, hOk, Some]
  · simp [JSOption.unwrap, JSOption.isNone, hv, Some]

/-- Witness for C5 at a concrete ordinary payload. -/
theorem c5_roundtrip_witness :
    vStr "Value" ≠ vNoneSym ∧ Result.isErr ⟨vStr "Value"⟩ = false ∧
    ((Some (vStr "Value")).okOr (vErr ⟨"Error", "E2", none⟩) = Ok (vStr "Value") ∧
     Result.ok (Ok (vStr "Value")) = Except.ok (Some (vStr "Value")) ∧
     JSOption.unwrap (Some (vStr "Value")) = Except.ok (vStr "Value")) :=
  ⟨by decide, by decide,
   c5_roundtrip.1 (vStr "Value") (vErr ⟨"Error", "E2", none⟩) (by decide) (by decide)⟩

/-- Claim C6 counterexample: applying Some to the exported none token itself
    produces a wrapper whose isSome is false and whose unwrap raises — the
    one value of the space on which the claimed universal law fails. -/
theorem c6_some_of_none_token :
    JSOption.isSome (Some vNoneSym) = false ∧
    JSOption.unwrap (Some vNoneSym) =
      Except.error (vErr ⟨"Error", "Unwrap called on None", none⟩) :=
  ⟨rfl, rfl⟩

/-- Claim C6 (corrected): for every value other than the none token itself —
    including null, undefined, falsy values and arbitrary fresh symbols —
    Some(v).isSome() is true and Some(v).unwrap() returns v; None().isNone()
    is true and None().unwrap() raises. -/
theorem c6_some_none_discriminants :
    (∀ v : Value, v ≠ vNoneSym →
        JSOption.isSome (Some v) = true ∧ JSOption.unwrap (Some v) = Except.ok v) ∧
    JSOption.isNone None = true ∧
    JSOption.unwrap None = Except.error (vErr ⟨"Error", "Unwrap called on None", none⟩) ∧
    JSOption.isSome (Some vNull) = true ∧
    JSOption.isSome (Some vUndefined) = true ∧
    JSOption.isSome (Some (vInt 0)) = true ∧
    JSOption.isSome (Some (vBool false)) = true ∧
    JSOption.isSome (Some (vStr "")) = true ∧
    (∀ n : Nat, JSOption.isSome (Some (vSym n)) = true) := by
  refine ⟨?_, rfl, rfl, rfl, rfl, rfl, rfl, rfl, fun n => rfl⟩
  intro v hv
  constructor
  · simp [JSOption.isSome, Some, hv]
  · simp [JSOption.unwrap, JSOption.isNone, Some, hv]

/-- Witness for C6 at the null payload, one of the values the claim
    emphasises. -/
theorem c6_some_none_discriminants_witness :
    vNull ≠ vNoneSym ∧
    (JSOption.isSome (Some vNull) = true ∧ JSOption.unwrap (Some vNull) = Except.ok vNull) :=
  ⟨by decide, c6_some_none_discriminants.1 vNull (by decide)⟩

end Optionals
